import Mathlib

/-!
Verification of the multi-format attachment correlation and validation
engine of `aries_cloudagent/protocols/present_proof/v2_0/messages/pres_request.py`.

The Python classes `V20PresRequest` and `V20PresRequestSchema` are embedded
shallowly: envelopes become a Lean structure, the marshmallow
`validates_schema` hook `validate_fields` becomes a function returning
`Except` (a raised `ValidationError` becomes `Except.error`), and the
in-place mutation `add_signature` becomes a function from envelope to
envelope.  The per-format capability registry (`V20PresFormat.Format`,
defined in `pres_format.py`, which is not part of the sources at hand) is
modelled from the spec as an explicit registry parameter.

Where the Python loop returns `None` on success, the embedding returns the
list of per-format validator invocations that the loop performed, so that
dispatch behaviour is observable; the success/failure outcome is unchanged.
-/

/-- An attachment: an identified container of content.
Embeds the two members of `AttachDecorator` that `pres_request.py` reads
(`ident` and `content`); content is kept opaque as a string payload. -/
structure AttachDecorator where
  ident : String
  content : String
deriving Repr, DecidableEq

/-- A format descriptor: embeds the two members of `V20PresFormat` that
`pres_request.py` reads (`attach_id` and `format`). -/
structure V20PresFormat where
  attach_id : String
  format : String
deriving Repr, DecidableEq

/-- Modelled from the spec (§4.2 Format Registry, §6): `pres_format.py` is
not among the sources, so the registry consumed by `pres_request.py` is
modelled as an explicit mapping.  `get` embeds `V20PresFormat.Format.get`
(format identifier → registry entry, `none` for an unknown format; entries
are named by naturals so that entry identity is decidable), and
`validateFields` embeds the per-format `validate_fields(stage, content)`
entry point, failing with a message on rejection. -/
structure FormatRegistry where
  get : String → Option Nat
  validateFields : Nat → String → String → Except String Unit

/-- Modelled from the spec (§4.2 Stage): the stage identifier
`PRES_20_REQUEST` from `message_types.py` (not among the sources); its
concrete value is irrelevant to the properties proved here. -/
def PRES_20_REQUEST : String := "present-proof/2.0/request-presentation"

/-- Structured counterpart of the `ValidationError`s raised by
`V20PresRequestSchema.validate_fields`:
`lengthMismatch` for "Formats/attachments length mismatch",
`noAttachment aid` for "No attachment for attach_id {aid} in formats",
`formatInvalid fid msg` for a `ValidationError` raised by a known format's
own `validate_fields` (carrying the format identifier and the reason). -/
inductive ValErr where
  | lengthMismatch : ValErr
  | noAttachment : String → ValErr
  | formatInvalid : String → String → ValErr
deriving Repr, DecidableEq

/-- Embeds the inner helper `get_attach_by_id` of
`V20PresRequestSchema.validate_fields`: return the first attachment whose
`ident` equals `attach_id`, else raise. -/
def get_attach_by_id (attachments : List AttachDecorator) (attach_id : String) :
    Except ValErr AttachDecorator :=
  match attachments.find? (fun atch => atch.ident == attach_id) with
  | some atch => Except.ok atch
  | none => Except.error (ValErr.noAttachment attach_id)

/-- The `for fmt in formats` loop of `validate_fields`: for each descriptor,
resolve its attachment (first failure aborts), then, when the format is
known to the registry, invoke the format's `validate_fields` on the
attachment content.  The Python loop returns `None`; here success carries
the list of (registry entry, content) pairs dispatched to per-format
validators, making dispatch observable without changing the outcome. -/
def validateLoop (reg : FormatRegistry) (attachments : List AttachDecorator) :
    List V20PresFormat → Except ValErr (List (Nat × String))
  | [] => Except.ok []
  | fmt :: rest =>
    match get_attach_by_id attachments fmt.attach_id with
    | Except.error e => Except.error e
    | Except.ok atch =>
      match reg.get fmt.format with
      | none => validateLoop reg attachments rest
      | some pf =>
        match reg.validateFields pf PRES_20_REQUEST atch.content with
        | Except.error e => Except.error (ValErr.formatInvalid fmt.format e)
        | Except.ok _ =>
          match validateLoop reg attachments rest with
          | Except.error e => Except.error e
          | Except.ok t => Except.ok ((pf, atch.content) :: t)

/-- The two fields of the deserialized `data` mapping that
`validate_fields` reads; each may be absent/None (`none`) or present. -/
structure PresRequestData where
  formats : Option (List V20PresFormat)
  request_presentations_attach : Option (List AttachDecorator)

/-- Embeds `V20PresRequestSchema.validate_fields`: coerce absent fields to
empty lists (`data.get(...) or []`), fail fast on a length mismatch, then
run the per-descriptor loop. -/
def validate_fields (reg : FormatRegistry) (data : PresRequestData) :
    Except ValErr (List (Nat × String)) :=
  let formats := data.formats.getD []
  let attachments := data.request_presentations_attach.getD []
  if formats.length ≠ attachments.length then
    Except.error ValErr.lengthMismatch
  else
    validateLoop reg attachments formats

/-- The envelope: embeds the fields of `V20PresRequest` set by its
`__init__` (the message id coming from the `AgentMessage` base class). -/
structure V20PresRequest where
  id : Option String
  comment : Option String
  verifier_did : Option String
  will_confirm : Bool
  formats : List V20PresFormat
  signature : Option String
  request_presentations_attach : List AttachDecorator
deriving Repr, DecidableEq

/-- Modelled from the spec (§4.3 Content Resolver, §6): the attachment-data
extraction helper `get_attachment_data` of `V20PresFormat.Format`
(`pres_format.py`, not among the sources).  For the registry entry `self`,
scan descriptors for the first one declaring a format that resolves to
`self`, then return the content of the attachment bound to its
`attach_id`, or `none` when either lookup fails. -/
def FormatRegistry.get_attachment_data (reg : FormatRegistry) (self : Nat)
    (formats : List V20PresFormat) (attachments : List AttachDecorator) :
    Option String :=
  match formats.find? (fun f => reg.get f.format == some self) with
  | none => none
  | some f =>
    (attachments.find? (fun a => a.ident == f.attach_id)).map
      (fun a => a.content)

/-- Embeds `V20PresRequest.attachment`: resolve the target format (the
argument when given, else the first declared format known to the registry)
and return the attachment data extracted for it, `none` when no format
resolves. -/
def V20PresRequest.attachment (reg : FormatRegistry) (req : V20PresRequest)
    (fmt : Option Nat) : Option String :=
  let target_format :=
    match fmt with
    | some f => some f
    | none => (req.formats.filterMap (fun f => reg.get f.format)).head?
  match target_format with
  | some tf => reg.get_attachment_data tf req.formats req.request_presentations_attach
  | none => none

/-- A byte, as stored in a Python `bytes` object. -/
def isByte (n : Nat) : Prop := n < 256

instance (n : Nat) : Decidable (isByte n) :=
  inferInstanceAs (Decidable (n < 256))

/-- The base64 alphabet lookup `chr` of RFC 4648, as used by
`base64.b64encode`: index 0–25 ↦ `A`–`Z`, 26–51 ↦ `a`–`z`,
52–61 ↦ `0`–`9`, 62 ↦ `+`, 63 ↦ `/`. -/
def b64chr (i : Nat) : Char :=
  if i < 26 then Char.ofNat (65 + i)
  else if i < 52 then Char.ofNat (97 + (i - 26))
  else if i < 62 then Char.ofNat (48 + (i - 52))
  else if i = 62 then '+'
  else '/'

/-- Inverse alphabet lookup used by `base64.b64decode`: `none` on a
character outside the alphabet. -/
def b64ord (c : Char) : Option Nat :=
  if 65 ≤ c.toNat ∧ c.toNat ≤ 90 then some (c.toNat - 65)
  else if 97 ≤ c.toNat ∧ c.toNat ≤ 122 then some (c.toNat - 97 + 26)
  else if 48 ≤ c.toNat ∧ c.toNat ≤ 57 then some (c.toNat - 48 + 52)
  else if c = '+' then some 62
  else if c = '/' then some 63
  else none

/-- `base64.b64encode` over a byte sequence: three input bytes become four
alphabet characters; a final group of one or two bytes is padded with
`=`. -/
def b64encode : List Nat → List Char
  | [] => []
  | [a] => [b64chr (a / 4), b64chr (a % 4 * 16), '=', '=']
  | [a, b] => [b64chr (a / 4), b64chr (a % 4 * 16 + b / 16),
               b64chr (b % 16 * 4), '=']
  | a :: b :: c :: rest =>
    b64chr (a / 4) :: b64chr (a % 4 * 16 + b / 16) ::
      b64chr (b % 16 * 4 + c / 64) :: b64chr (c % 64) :: b64encode rest

/-- `base64.b64decode` over the characters of a base64 string: four
characters yield three bytes, with an `=`-padded final group yielding two
or one; `none` on input that is not valid base64. -/
def b64decode : List Char → Option (List Nat)
  | [] => some []
  | c0 :: c1 :: c2 :: c3 :: rest =>
    if c2 = '=' ∧ c3 = '=' ∧ rest = [] then
      match b64ord c0, b64ord c1 with
      | some i0, some i1 => some [i0 * 4 + i1 / 16]
      | _, _ => none
    else if c3 = '=' ∧ rest = [] then
      match b64ord c0, b64ord c1, b64ord c2 with
      | some i0, some i1, some i2 =>
        some [i0 * 4 + i1 / 16, i1 % 16 * 16 + i2 / 4]
      | _, _, _ => none
    else
      match b64ord c0, b64ord c1, b64ord c2, b64ord c3, b64decode rest with
      | some i0, some i1, some i2, some i3, some tail =>
        some ((i0 * 4 + i1 / 16) :: (i1 % 16 * 16 + i2 / 4) ::
          (i2 % 4 * 64 + i3) :: tail)
      | _, _, _, _, _ => none
  | _ => none

/-- Embeds `V20PresRequest.add_signature`: store the base64 encoding of the
signing bytes (decoded to text) on the `signature` field.  The Python
method mutates `self`; the embedding returns the updated envelope. -/
def V20PresRequest.add_signature (req : V20PresRequest) (sign : List Nat) :
    V20PresRequest :=
  { req with signature := some (String.mk (b64encode sign)) }

/-- A registry that knows no format at all (used to instantiate theorems
on concrete inputs). -/
def regEmpty : FormatRegistry :=
  { get := fun _ => none
    validateFields := fun _ _ _ => Except.ok () }

/-- A registry with a single known format identifier whose validator
accepts everything (used to instantiate theorems on concrete inputs). -/
def regK : FormatRegistry :=
  { get := fun s => if s = "known/1.0" then some 0 else none
    validateFields := fun _ _ _ => Except.ok () }

/-- A concrete envelope used to instantiate theorems. -/
def reqW : V20PresRequest :=
  { id := some "m1"
    comment := some "hello"
    verifier_did := none
    will_confirm := false
    formats := [⟨"a1", "unknown/1.0"⟩, ⟨"a2", "known/1.0"⟩]
    signature := none
    request_presentations_attach := [⟨"a1", "x"⟩, ⟨"a2", "y"⟩] }

/-- A descriptor passes its own step of the validation loop: its attachment
resolves, and when its format is known to the registry the format's
validator accepts the attachment content. -/
def descOK (reg : FormatRegistry) (attachments : List AttachDecorator)
    (f : V20PresFormat) : Bool :=
  match attachments.find? (fun a => a.ident == f.attach_id) with
  | none => false
  | some a =>
    match reg.get f.format with
    | none => true
    | some pf => (reg.validateFields pf PRES_20_REQUEST a.content).isOk

/-- Claim C1: for every envelope, schema validation fails with the
cardinality error whenever the (coerced) formats and attachments sequences
have different lengths, regardless of their content; the error equation
holds before and independently of any per-descriptor attachment lookup. -/
theorem validate_cardinality (reg : FormatRegistry)
    (df : Option (List V20PresFormat)) (da : Option (List AttachDecorator))
    (h : (df.getD []).length ≠ (da.getD []).length) :
    validate_fields reg ⟨df, da⟩ = Except.error ValErr.lengthMismatch := by
  simp [validate_fields, h]

/-- Witness for C1 on a concrete envelope with one format and no
attachment. -/
theorem validate_cardinality_witness :
    validate_fields regEmpty ⟨some [⟨"a1", "f"⟩], some []⟩ =
      Except.error ValErr.lengthMismatch :=
  validate_cardinality regEmpty (some [⟨"a1", "f"⟩]) (some []) (by decide)

/-- Claim C10: an envelope whose formats and attachments both coerce to the
empty sequence — whether the field is absent (`none`) or an explicitly
empty list — passes correlation and per-format validation with no error. -/
theorem validate_empty_ok (reg : FormatRegistry)
    (df : Option (List V20PresFormat)) (da : Option (List AttachDecorator))
    (hf : df.getD [] = []) (ha : da.getD [] = []) :
    validate_fields reg ⟨df, da⟩ = Except.ok [] := by
  simp [validate_fields, hf, ha, validateLoop]

/-- Witness for C10 with both fields absent. -/
theorem validate_empty_ok_witness :
    validate_fields regEmpty ⟨none, none⟩ = Except.ok [] :=
  validate_empty_ok regEmpty none none rfl rfl

/-- Claim C8: add_signature changes only the signature field; comment,
verifier_did, will_confirm, formats, request_presentations_attach and the
message id are identical before and after the call. -/
theorem add_signature_frame (req : V20PresRequest) (sign : List Nat) :
    (req.add_signature sign).comment = req.comment ∧
    (req.add_signature sign).verifier_did = req.verifier_did ∧
    (req.add_signature sign).will_confirm = req.will_confirm ∧
    (req.add_signature sign).formats = req.formats ∧
    (req.add_signature sign).request_presentations_attach =
      req.request_presentations_attach ∧
    (req.add_signature sign).id = req.id :=
  ⟨rfl, rfl, rfl, rfl, rfl, rfl⟩

/-- Claim C9: validation is deterministic — run on the same envelope data
(the same formats and attachments fields) with the same registry, it
returns the same outcome, and on failure the same error value, both times.
The embedding makes this a consequence of validate_fields being a pure
function of the registry and the two data fields. -/
theorem validate_deterministic (reg : FormatRegistry)
    (d1 d2 : PresRequestData)
    (hf : d1.formats = d2.formats)
    (ha : d1.request_presentations_attach = d2.request_presentations_attach) :
    validate_fields reg d1 = validate_fields reg d2 := by
  cases d1
  cases d2
  dsimp at hf ha
  subst hf
  subst ha
  rfl

/-- Witness for C9 on a concrete envelope validated twice. -/
theorem validate_deterministic_witness :
    validate_fields regK ⟨some [⟨"a1", "known/1.0"⟩], some [⟨"a1", "x"⟩]⟩ =
      validate_fields regK ⟨some [⟨"a1", "known/1.0"⟩], some [⟨"a1", "x"⟩]⟩ :=
  validate_deterministic regK _ _ rfl rfl

/-- One step of the loop: a descriptor that passes its own step preserves
any error produced by the rest of the loop (fail-fast propagation). -/
theorem validateLoop_cons_error (reg : FormatRegistry)
    (attachments : List AttachDecorator) (g : V20PresFormat)
    (rest : List V20PresFormat) (e : ValErr)
    (hg : descOK reg attachments g = true)
    (he : validateLoop reg attachments rest = Except.error e) :
    validateLoop reg attachments (g :: rest) = Except.error e := by
  unfold descOK at hg
  cases hfind : attachments.find? (fun a => a.ident == g.attach_id) with
  | none => simp [hfind] at hg
  | some a =>
    simp only [hfind] at hg
    cases hget : reg.get g.format with
    | none =>
      simp [validateLoop, get_attach_by_id, hfind, hget, he]
    | some pf =>
      simp only [hget] at hg
      cases hval : reg.validateFields pf PRES_20_REQUEST a.content with
      | error msg => simp [hval, Except.isOk, Except.toBool] at hg
      | ok u =>
        simp [validateLoop, get_attach_by_id, hfind, hget, hval, he]

/-- When every descriptor of the prefix passes its step and the next
descriptor's attachment is missing, the loop fails with the
missing-attachment error for that descriptor, whatever follows it. -/
theorem validateLoop_missing (reg : FormatRegistry)
    (attachments : List AttachDecorator) (f : V20PresFormat)
    (post : List V20PresFormat)
    (hf : attachments.find? (fun a => a.ident == f.attach_id) = none) :
    ∀ pre : List V20PresFormat,
      (∀ g ∈ pre, descOK reg attachments g = true) →
      validateLoop reg attachments (pre ++ f :: post) =
        Except.error (ValErr.noAttachment f.attach_id)
  | [], _ => by simp [validateLoop, get_attach_by_id, hf]
  | g :: pre, h => by
    have ih := validateLoop_missing reg attachments f post hf pre
      (fun x hx => h x (List.mem_cons_of_mem g hx))
    exact validateLoop_cons_error reg attachments g (pre ++ f :: post) _
      (h g (List.mem_cons_self g pre)) ih

/-- Claim C2: on an envelope with equal-length formats and attachments, if
a descriptor's attach_id matches no attachment identifier and every
earlier descriptor passes its own validation step, validate_fields fails
with the missing-attachment error naming that attach_id — independently of
everything that follows the failing descriptor (fail-fast, errors are not
accumulated). -/
theorem validate_missing_attachment (reg : FormatRegistry)
    (pre post : List V20PresFormat) (f : V20PresFormat)
    (attachments : List AttachDecorator)
    (hlen : (pre ++ f :: post).length = attachments.length)
    (hpre : ∀ g ∈ pre, descOK reg attachments g = true)
    (hf : ∀ a ∈ attachments, a.ident ≠ f.attach_id) :
    validate_fields reg ⟨some (pre ++ f :: post), some attachments⟩ =
      Except.error (ValErr.noAttachment f.attach_id) := by
  have hfind : attachments.find? (fun a => a.ident == f.attach_id) = none :=
    List.find?_eq_none.mpr (fun a ha => by simpa using hf a ha)
  simp only [validate_fields, Option.getD_some, hlen, ne_eq,
    not_true_eq_false, if_false]
  exact validateLoop_missing reg attachments f post hfind pre hpre

/-- Witness for C2: formats [a1], attachments [a2], as in the spec's
missing-attachment example. -/
theorem validate_missing_attachment_witness :
    validate_fields regEmpty ⟨some [⟨"a1", "f"⟩], some [⟨"a2", "x"⟩]⟩ =
      Except.error (ValErr.noAttachment "a1") :=
  validate_missing_attachment regEmpty [] [] ⟨"a1", "f"⟩ [⟨"a2", "x"⟩]
    rfl (by simp) (by decide)

/-- When every descriptor's attachment lookup succeeds, the loop never
produces a cardinality or missing-attachment error: it either succeeds or
fails with a per-format rejection. -/
theorem validateLoop_no_correlation_error (reg : FormatRegistry)
    (attachments : List AttachDecorator) :
    ∀ formats : List V20PresFormat,
      (∀ f ∈ formats,
        (attachments.find? (fun a => a.ident == f.attach_id)).isSome) →
      (∃ t, validateLoop reg attachments formats = Except.ok t) ∨
      (∃ fid msg, validateLoop reg attachments formats =
        Except.error (ValErr.formatInvalid fid msg))
  | [], _ => Or.inl ⟨[], rfl⟩
  | f :: rest, h => by
    have hf := h f (List.mem_cons_self f rest)
    obtain ⟨a, hfind⟩ := Option.isSome_iff_exists.mp hf
    have ih := validateLoop_no_correlation_error reg attachments rest
      (fun x hx => h x (List.mem_cons_of_mem f hx))
    cases hget : reg.get f.format with
    | none =>
      cases ih with
      | inl hok =>
        obtain ⟨t, ht⟩ := hok
        exact Or.inl ⟨t, by simp [validateLoop, get_attach_by_id, hfind, hget, ht]⟩
      | inr herr =>
        obtain ⟨fid, msg, ht⟩ := herr
        exact Or.inr ⟨fid, msg, by simp [validateLoop, get_attach_by_id, hfind, hget, ht]⟩
    | some pf =>
      cases hval : reg.validateFields pf PRES_20_REQUEST a.content with
      | error msg =>
        exact Or.inr ⟨f.format, msg, by simp [validateLoop, get_attach_by_id, hfind, hget, hval]⟩
      | ok u =>
        cases ih with
        | inl hok =>
          obtain ⟨t, ht⟩ := hok
          exact Or.inl ⟨(pf, a.content) :: t, by simp [validateLoop, get_attach_by_id, hfind, hget, hval, ht]⟩
        | inr herr =>
          obtain ⟨fid, msg, ht⟩ := herr
          exact Or.inr ⟨fid, msg, by simp [validateLoop, get_attach_by_id, hfind, hget, hval, ht]⟩

/-- Claim C3: on a well-formed envelope — equal lengths, and every
descriptor's attach_id matching exactly one attachment identifier — the
correlation phase succeeds: validation raises neither the cardinality
error nor a missing-attachment error for any identifier. -/
theorem validate_correlation_ok (reg : FormatRegistry)
    (formats : List V20PresFormat) (attachments : List AttachDecorator)
    (hlen : formats.length = attachments.length)
    (huniq : ∀ f ∈ formats,
      (attachments.filter (fun a => a.ident == f.attach_id)).length = 1) :
    validate_fields reg ⟨some formats, some attachments⟩ ≠
        Except.error ValErr.lengthMismatch ∧
      ∀ aid, validate_fields reg ⟨some formats, some attachments⟩ ≠
        Except.error (ValErr.noAttachment aid) := by
  have hsome : ∀ f ∈ formats,
      (attachments.find? (fun a => a.ident == f.attach_id)).isSome := by
    intro f hfmem
    have h1 := huniq f hfmem
    rcases hfil : attachments.filter (fun a => a.ident == f.attach_id) with _ | ⟨x, xs⟩
    · rw [hfil] at h1
      simp at h1
    · have hx : x ∈ attachments.filter (fun a => a.ident == f.attach_id) := by
        rw [hfil]
        exact List.mem_cons_self x xs
      have hx2 := List.mem_filter.mp hx
      exact List.find?_isSome.mpr ⟨x, hx2.1, hx2.2⟩
  have hmain := validateLoop_no_correlation_error reg attachments formats hsome
  have hred : validate_fields reg ⟨some formats, some attachments⟩ =
      validateLoop reg attachments formats := by
    simp [validate_fields, hlen]
  constructor
  · rw [hred]
    rcases hmain with ⟨t, ht⟩ | ⟨fid, msg, ht⟩ <;> simp [ht]
  · intro aid
    rw [hred]
    rcases hmain with ⟨t, ht⟩ | ⟨fid, msg, ht⟩ <;> simp [ht]

/-- Witness for C3 on a one-descriptor, one-attachment envelope. -/
theorem validate_correlation_ok_witness :
    validate_fields regK ⟨some [⟨"a1", "known/1.0"⟩], some [⟨"a1", "x"⟩]⟩ ≠
        Except.error ValErr.lengthMismatch ∧
      validate_fields regK ⟨some [⟨"a1", "known/1.0"⟩], some [⟨"a1", "x"⟩]⟩ ≠
        Except.error (ValErr.noAttachment "a1") :=
  ⟨(validate_correlation_ok regK [⟨"a1", "known/1.0"⟩] [⟨"a1", "x"⟩]
      rfl (by decide)).1,
   (validate_correlation_ok regK [⟨"a1", "known/1.0"⟩] [⟨"a1", "x"⟩]
      rfl (by decide)).2 "a1"⟩

/-- Claim C4: when several attachments share an identifier and a
descriptor's attach_id equals it, the correlator binds the descriptor to
the first attachment (in sequence order) bearing that identifier and
raises no error for the duplicate. -/
theorem correlate_duplicate_first (pre rest : List AttachDecorator)
    (a1 : AttachDecorator)
    (hpre : ∀ b ∈ pre, b.ident ≠ a1.ident)
    (hdup : ∃ a2 ∈ rest, a2.ident = a1.ident) :
    get_attach_by_id (pre ++ a1 :: rest) a1.ident = Except.ok a1 := by
  have h1 : pre.find? (fun a => a.ident == a1.ident) = none :=
    List.find?_eq_none.mpr (fun b hb => by simpa using hpre b hb)
  unfold get_attach_by_id
  rw [List.find?_append, h1]
  simp [List.find?]

/-- Witness for C4: two attachments with the same identifier; the first is
returned. -/
theorem correlate_duplicate_first_witness :
    get_attach_by_id [⟨"a1", "x"⟩, ⟨"a1", "y"⟩] "a1" =
      Except.ok ⟨"a1", "x"⟩ :=
  correlate_duplicate_first [] [⟨"a1", "y"⟩] ⟨"a1", "x"⟩
    (by simp) ⟨⟨"a1", "y"⟩, by simp, rfl⟩

/-- Spec-side description of the per-format dispatches: one entry per
descriptor whose format is known to the registry, paired with the content
of its resolved attachment; descriptors with unknown formats contribute
nothing. -/
def knownDispatches (reg : FormatRegistry) (attachments : List AttachDecorator)
    (formats : List V20PresFormat) : List (Nat × String) :=
  formats.filterMap (fun f =>
    (reg.get f.format).bind (fun pf =>
      (attachments.find? (fun a => a.ident == f.attach_id)).map
        (fun a => (pf, a.content))))

/-- A successful loop run dispatched per-format validation exactly for the
descriptors with known formats. -/
theorem validateLoop_ok_dispatches (reg : FormatRegistry)
    (attachments : List AttachDecorator) :
    ∀ (formats : List V20PresFormat) (t : List (Nat × String)),
      validateLoop reg attachments formats = Except.ok t →
      t = knownDispatches reg attachments formats
  | [], t, h => by
    simp [validateLoop] at h
    simp [knownDispatches, ← h]
  | f :: rest, t, h => by
    cases hfind : attachments.find? (fun a => a.ident == f.attach_id) with
    | none => simp [validateLoop, get_attach_by_id, hfind] at h
    | some a =>
      cases hget : reg.get f.format with
      | none =>
        have ih := validateLoop_ok_dispatches reg attachments rest t
          (by simpa [validateLoop, get_attach_by_id, hfind, hget] using h)
        simp [knownDispatches, List.filterMap_cons, hget, ih]
      | some pf =>
        cases hval : reg.validateFields pf PRES_20_REQUEST a.content with
        | error msg => simp [validateLoop, get_attach_by_id, hfind, hget, hval] at h
        | ok u =>
          cases hrest : validateLoop reg attachments rest with
          | error e => simp [validateLoop, get_attach_by_id, hfind, hget, hval, hrest] at h
          | ok t2 =>
            have ih := validateLoop_ok_dispatches reg attachments rest t2 hrest
            have ht : t = (pf, a.content) :: t2 := by
              simpa [validateLoop, get_attach_by_id, hfind, hget, hval, hrest] using h.symm
            subst ht
            simp [knownDispatches, List.filterMap_cons, hget, hfind, ih]

/-- A per-format rejection can only originate from a format identifier
known to the registry: unknown formats never produce it. -/
theorem validateLoop_formatInvalid_known (reg : FormatRegistry)
    (attachments : List AttachDecorator) :
    ∀ (formats : List V20PresFormat) (fid msg : String),
      validateLoop reg attachments formats =
        Except.error (ValErr.formatInvalid fid msg) →
      (reg.get fid).isSome
  | [], fid, msg, h => by simp [validateLoop] at h
  | f :: rest, fid, msg, h => by
    cases hfind : attachments.find? (fun a => a.ident == f.attach_id) with
    | none => simp [validateLoop, get_attach_by_id, hfind] at h
    | some a =>
      cases hget : reg.get f.format with
      | none =>
        exact validateLoop_formatInvalid_known reg attachments rest fid msg
          (by simpa [validateLoop, get_attach_by_id, hfind, hget] using h)
      | some pf =>
        cases hval : reg.validateFields pf PRES_20_REQUEST a.content with
        | error m2 =>
          have h2 : f.format = fid ∧ m2 = msg := by
            simpa [validateLoop, get_attach_by_id, hfind, hget, hval] using h
          rw [← h2.1, hget]
          rfl
        | ok u =>
          cases hrest : validateLoop reg attachments rest with
          | error e =>
            have h2 : e = ValErr.formatInvalid fid msg := by
              simpa [validateLoop, get_attach_by_id, hfind, hget, hval, hrest] using h
            exact validateLoop_formatInvalid_known reg attachments rest fid msg (h2 ▸ hrest)
          | ok t2 => simp [validateLoop, get_attach_by_id, hfind, hget, hval, hrest] at h

/-- Claim C5: descriptors with format identifiers unknown to the registry
are silently skipped: a successful validation dispatched per-format
validateFields exactly for the known-format descriptors (with their bound
content), and a per-format rejection never carries an unknown format
identifier. -/
theorem validate_unknown_skipped (reg : FormatRegistry)
    (formats : List V20PresFormat) (attachments : List AttachDecorator) :
    (∀ t, validate_fields reg ⟨some formats, some attachments⟩ = Except.ok t →
      t = knownDispatches reg attachments formats) ∧
    (∀ fid msg, validate_fields reg ⟨some formats, some attachments⟩ =
        Except.error (ValErr.formatInvalid fid msg) →
      (reg.get fid).isSome) := by
  by_cases hlen : formats.length = attachments.length
  · have hred : validate_fields reg ⟨some formats, some attachments⟩ =
        validateLoop reg attachments formats := by
      simp [validate_fields, hlen]
    rw [hred]
    exact ⟨fun t ht => validateLoop_ok_dispatches reg attachments formats t ht,
      fun fid msg h => validateLoop_formatInvalid_known reg attachments formats fid msg h⟩
  · have hred : validate_fields reg ⟨some formats, some attachments⟩ =
        Except.error ValErr.lengthMismatch := by
      simp [validate_fields, hlen]
    rw [hred]
    exact ⟨fun t ht => by simp at ht, fun fid msg h => by simp at h⟩

/-- Witness for C5: one unknown-format and one known-format descriptor;
only the known one is dispatched. -/
theorem validate_unknown_skipped_witness :
    [((0 : Nat), "y")] = knownDispatches regK [⟨"a1", "x"⟩, ⟨"a2", "y"⟩]
      [⟨"a1", "zzz/9.9"⟩, ⟨"a2", "known/1.0"⟩] :=
  (validate_unknown_skipped regK [⟨"a1", "zzz/9.9"⟩, ⟨"a2", "known/1.0"⟩]
    [⟨"a1", "x"⟩, ⟨"a2", "y"⟩]).1 [((0 : Nat), "y")] rfl

/-- Resolution helper: picking the first registry entry produced by the
descriptor list and extracting its attachment data is the same as binding
the first descriptor whose format is known. -/
theorem resolve_first_known (reg : FormatRegistry)
    (atts : List AttachDecorator) :
    ∀ fs : List V20PresFormat,
      (match (fs.filterMap (fun f => reg.get f.format)).head? with
       | some tf => reg.get_attachment_data tf fs atts
       | none => none) =
      (match fs.find? (fun f => (reg.get f.format).isSome) with
       | none => none
       | some f => (atts.find? (fun a => a.ident == f.attach_id)).map
           (fun a => a.content))
  | [] => rfl
  | f :: fs => by
    cases hget : reg.get f.format with
    | some pf =>
      simp [List.filterMap_cons, hget, FormatRegistry.get_attachment_data,
        List.find?_cons, hget]
    | none =>
      have ih := resolve_first_known reg atts fs
      simp only [List.filterMap_cons, hget, List.find?_cons]
      have hskip : ∀ tf : Nat,
          reg.get_attachment_data tf (f :: fs) atts =
            reg.get_attachment_data tf fs atts := by
        intro tf
        simp [FormatRegistry.get_attachment_data, List.find?_cons, hget]
      cases hh : (fs.filterMap (fun g => reg.get g.format)).head? with
      | none =>
        rw [hh] at ih
        simpa [hh, Option.isSome] using ih
      | some tf =>
        rw [hh] at ih
        simpa [hh, hskip tf, Option.isSome] using ih

/-- Claim C6: with no target format, attachment() resolves the first
descriptor (in declared order) whose format is known to the registry and
returns the content of the attachment bound to its attach_id; when no
declared format is known — in particular when formats is empty — it
returns none rather than failing. -/
theorem attachment_default_resolution (reg : FormatRegistry)
    (req : V20PresRequest) :
    req.attachment reg none =
      (match req.formats.find? (fun f => (reg.get f.format).isSome) with
       | none => none
       | some f =>
         (req.request_presentations_attach.find?
             (fun a => a.ident == f.attach_id)).map (fun a => a.content)) := by
  have h := resolve_first_known reg req.request_presentations_attach req.formats
  simpa [V20PresRequest.attachment] using h

/-- Decoding inverts the alphabet lookup on every alphabet index. -/
theorem b64ord_b64chr : ∀ i : Nat, i < 64 → b64ord (b64chr i) = some i := by
  decide

/-- The alphabet never produces the padding character. -/
theorem b64chr_ne_pad : ∀ i : Nat, i < 64 → b64chr i ≠ '=' := by
  decide

/-- Base64 round-trip: decoding the encoding of any byte sequence yields
the sequence back. -/
theorem b64_roundtrip : ∀ bs : List Nat, (∀ x ∈ bs, isByte x) →
    b64decode (b64encode bs) = some bs
  | [], _ => rfl
  | [a], h => by
    have ha : a < 256 := h a (by simp)
    have h0 : a / 4 < 64 := by omega
    have h1 : a % 4 * 16 < 64 := by omega
    simp [b64encode, b64decode, b64ord_b64chr _ h0, b64ord_b64chr _ h1]
    omega
  | [a, b], h => by
    have ha : a < 256 := h a (by simp)
    have hb : b < 256 := h b (by simp)
    have h0 : a / 4 < 64 := by omega
    have h1 : a % 4 * 16 + b / 16 < 64 := by omega
    have h2 : b % 16 * 4 < 64 := by omega
    simp [b64encode, b64decode, b64ord_b64chr _ h0, b64ord_b64chr _ h1,
      b64ord_b64chr _ h2, b64chr_ne_pad _ h2]
    omega
  | a :: b :: c :: rest, h => by
    have ha : a < 256 := h a (by simp)
    have hb : b < 256 := h b (by simp)
    have hc : c < 256 := h c (by simp)
    have ih := b64_roundtrip rest (fun x hx => h x (by simp [hx]))
    have h0 : a / 4 < 64 := by omega
    have h1 : a % 4 * 16 + b / 16 < 64 := by omega
    have h2 : b % 16 * 4 + c / 64 < 64 := by omega
    have h3 : c % 64 < 64 := by omega
    simp [b64encode, b64decode, b64ord_b64chr _ h0, b64ord_b64chr _ h1,
      b64ord_b64chr _ h2, b64ord_b64chr _ h3, b64chr_ne_pad _ h2,
      b64chr_ne_pad _ h3, ih]
    omega

/-- Claim C7: for every envelope and every byte sequence, add_signature
followed by decoding the stored signature field with the inverse transport
decoding yields exactly the original bytes. -/
theorem add_signature_roundtrip (req : V20PresRequest) (sign : List Nat)
    (h : ∀ x ∈ sign, isByte x) :
    ((req.add_signature sign).signature).map (fun s => b64decode s.data) =
      some (some sign) := by
  simp only [V20PresRequest.add_signature, Option.map_some]
  exact congrArg some (b64_roundtrip sign h)

/-- Witness for C7 on concrete signing bytes. -/
theorem add_signature_roundtrip_witness :
    ((reqW.add_signature [0, 77, 255, 10]).signature).map
        (fun s => b64decode s.data) = some (some [0, 77, 255, 10]) :=
  add_signature_roundtrip reqW [0, 77, 255, 10] (by decide)
